import Mathlib

/-!
Verification of the Project Prometheus session orchestrator
(`src/core/orchestrator.py`) against its natural-language specification.

The Python source is shallowly embedded: pure helpers become Lean
functions on `String`/`List`, the orchestrator object becomes an explicit
state record that the modelled methods thread, and the outcomes of the
two external collaborators (the Gemini API and the Claude CLI subprocess)
are parameters of the modelled methods.  Non-ASCII characters that the
source file stores literally (including its mojibake emoji prefixes) are
transcribed with `\uXXXX` escapes.
-/

namespace Prometheus

/-! ## String primitives

Models of the Python string operations the orchestrator uses:
`str.lower()` (ASCII case folding; the phrase tables and all detector
patterns are already lower-case), the `in` substring test, and
`str.strip()`.  They are written with plain structural recursion so that
the kernel can evaluate them on concrete inputs. -/

/-- ASCII lower-casing of one character, model of Python `str.lower` per char. -/
def lowChar (c : Char) : Char :=
  if 65 ≤ c.toNat ∧ c.toNat ≤ 90 then Char.ofNat (c.toNat + 32) else c

/-- Model of Python `str.lower()`. -/
def lowerStr (s : String) : String :=
  String.mk (s.data.map lowChar)

/-- Does the character list start with the given pattern list? -/
def charsStartWith : List Char → List Char → Bool
  | [], _ => true
  | _ :: _, [] => false
  | p :: ps, c :: cs => p == c && charsStartWith ps cs

/-- Does the pattern list occur somewhere in the character list? -/
def charsHas : List Char → List Char → Bool
  | pat, [] => pat.isEmpty
  | pat, c :: cs => charsStartWith pat (c :: cs) || charsHas pat cs

/-- Model of Python `pat in s` (substring containment). -/
def strHas (s pat : String) : Bool :=
  charsHas pat.data s.data

/-- Python whitespace characters stripped by `str.strip()`. -/
def isPyWs (c : Char) : Bool :=
  c == ' ' || c == '\t' || c == '\n' || c == '\u000D' || c == '\u000B' || c == '\u000C'

/-- Model of Python `str.strip()`. -/
def trimStr (s : String) : String :=
  String.mk (((s.data.dropWhile isPyWs).reverse.dropWhile isPyWs).reverse)

/-! ## `ProviderErrorHandler` (orchestrator.py lines 291-406)

The static error classifier and fallback policy shared by both
providers. -/

/-- `ProviderErrorHandler.ERROR_TYPES` values. -/
def ERROR_TYPES : List (String × String) :=
  [("RATE_LIMIT", "rate_limit"),
   ("QUOTA_EXCEEDED", "quota_exceeded"),
   ("CONNECTION_ERROR", "connection_error"),
   ("USAGE_LIMIT", "usage_limit"),
   ("API_KEY_INVALID", "api_key_invalid"),
   ("GENERIC_ERROR", "generic_error")]

/-- `ProviderErrorHandler.USER_MESSAGES_IT`; the leading characters are the
mojibake bytes stored literally in the source file. -/
def USER_MESSAGES_IT : List (String × String) :=
  [("rate_limit",
    "\uF8FF\u00FC\u00EE\u00D1 Il servizio \u221A\u00AE temporaneamente sovraccarico. Passo automaticamente al provider alternativo per continuare senza interruzioni..."),
   ("quota_exceeded",
    "\u201A\u00F6\u00B0 Quota API raggiunta per questo provider. Continuo seamlessly con l\u0027architetto alternativo..."),
   ("usage_limit",
    "\u201A\u00E8\u2265 Limite di utilizzo raggiunto. Effettuo il passaggio trasparente al backup per proseguire la sessione..."),
   ("connection_error",
    "\uF8FF\u00FC\u00EE\u00F3 Problema di connessione rilevato. Provo con il provider alternativo..."),
   ("api_key_invalid",
    "\uF8FF\u00FC\u00EE\u00EB Chiave API non configurata o non valida per Gemini. Passo automaticamente a Claude per continuare senza interruzioni..."),
   ("generic_error",
    "\u201A\u00F6\u2020\u00D4\u220F\u00E8 Errore temporaneo rilevato. Cambio provider per mantenere la continuit\u221A\u2020 del servizio..."),
   ("both_failed",
    "\uF8FF\u00FC\u00F6\u00B4 Entrambi i provider hanno raggiunto i loro limiti di utilizzo. La sessione deve essere sospesa. Riprova pi\u221A\u03C0 tardi quando i servizi saranno nuovamente disponibili."),
   ("fallback_success",
    "\u201A\u00FA\u00D6 Passaggio completato con successo. La sessione continua con \x7bprovider\x7d.")]

/-- `ProviderErrorHandler.USER_MESSAGES_EN`. -/
def USER_MESSAGES_EN : List (String × String) :=
  [("rate_limit",
    "\uF8FF\u00FC\u00EE\u00D1 Service temporarily overloaded. Automatically switching to alternative provider to continue seamlessly..."),
   ("quota_exceeded",
    "\u201A\u00F6\u00B0 API quota reached for this provider. Continuing seamlessly with alternative architect..."),
   ("usage_limit",
    "\u201A\u00E8\u2265 Usage limit reached. Making transparent switch to backup provider to continue the session..."),
   ("connection_error",
    "\uF8FF\u00FC\u00EE\u00F3 Connection issue detected. Trying with alternative provider..."),
   ("api_key_invalid",
    "\uF8FF\u00FC\u00EE\u00EB API key not configured or invalid for Gemini. Automatically switching to Claude to continue seamlessly..."),
   ("generic_error",
    "\u201A\u00F6\u2020\u00D4\u220F\u00E8 Temporary error detected. Switching provider to maintain service continuity..."),
   ("both_failed",
    "\uF8FF\u00FC\u00F6\u00B4 Both providers have reached their usage limits. Session must be suspended. Please try again later when services are available again."),
   ("fallback_success",
    "\u201A\u00FA\u00D6 Switch completed successfully. Session continues with \x7bprovider\x7d.")]

/-- Model of `ProviderErrorHandler.detect_error_type(error_message, error_code)`.
`none` for the message models Python `None`; `if not error_message` is true
for both `None` and the empty string. -/
def detect_error_type (error_message : Option String) (error_code : Option Int) : String :=
  match error_message with
  | none => "generic_error"
  | some msg =>
    if msg = "" then "generic_error"
    else
      let error_text := lowerStr msg
      if error_code = some 429 || strHas error_text "429" || strHas error_text "rate limit"
          || strHas error_text "too many requests" then
        "rate_limit"
      else if (strHas error_text "quota" && (strHas error_text "exceeded" || strHas error_text "exhaust"))
          || strHas error_text "resource_exhausted"
          || strHas error_text "quota_exceeded"
          || strHas error_text "daily quota"
          || strHas error_text "monthly quota" then
        "quota_exceeded"
      else if strHas error_text "limit reached" || strHas error_text "usage limit"
          || strHas error_text "daily limit" then
        "usage_limit"
      else if ["api key not valid", "api_key_invalid", "invalid api key",
               "api key is invalid"].any (fun keyword => strHas error_text keyword) then
        "api_key_invalid"
      else if ["connection", "timeout", "network",
               "unavailable"].any (fun keyword => strHas error_text keyword) then
        "connection_error"
      else
        "generic_error"

/-- Model of `ProviderErrorHandler.get_user_message(error_type, lang, provider_name)`. -/
def get_user_message (error_type : String) (lang : String) (provider_name : Option String) : String :=
  let messages := if lang = "it" then USER_MESSAGES_IT else USER_MESSAGES_EN
  match messages.find? (fun p => p.1 = error_type) with
  | some p =>
    match provider_name with
    | some name =>
      if strHas p.2 "\x7bprovider\x7d" then p.2.replace "\x7bprovider\x7d" name else p.2
    | none => p.2
  | none =>
    ((messages.find? (fun p => p.1 = "generic_error")).map Prod.snd).getD ""

/-- Model of `ProviderErrorHandler.should_attempt_fallback(error_type)`:
every error type except the generic one may trigger a fallback. -/
def should_attempt_fallback (error_type : String) : Bool :=
  error_type != "generic_error"

/-- Claim C10: the provider error classifier returns the generic category for
every empty or `None` error message, `should_attempt_fallback` is `false`
exactly on the generic category, and hence an error with no message text
never triggers a provider fallback. -/
theorem c10_empty_error_never_falls_back :
    (∀ code : Option Int, detect_error_type none code = "generic_error")
    ∧ (∀ code : Option Int, detect_error_type (some "") code = "generic_error")
    ∧ (∀ et : String, should_attempt_fallback et = false ↔ et = "generic_error")
    ∧ (∀ code : Option Int,
        should_attempt_fallback (detect_error_type none code) = false
        ∧ should_attempt_fallback (detect_error_type (some "") code) = false) := by
  refine ⟨fun _ => rfl, fun _ => rfl, fun et => ?_, fun _ => ⟨rfl, rfl⟩⟩
  simp [should_attempt_fallback]

/-! ## Session state (`Orchestrator.__init__`, orchestrator.py lines 2112-2187)

The orchestrator object is embedded as an explicit record; the modelled
methods thread it.  Logging, tracing and performance-tracking attributes
have no control-flow effect and are omitted. -/

/-- The `PROMPTS` table (orchestrator.py lines 2074-2105). -/
def PROMPTS : List (String × List (String × String)) :=
  [("it",
    [("system_instruction",
      "Sei un architetto software di nome Prometheus. Il tuo compito \u221A\u00AE dialogare con l\u0027utente per definire le specifiche di un\u0027applicazione. Sii conciso e diretto. Fornisci risposte brevi e mirate. Elabora solo se l\u0027utente te lo chiede esplicitamente. Se l\u0027utente ti chiede un consiglio, spiega le opzioni in modo chiaro e fornisci una raccomandazione motivata. Il tuo output deve essere in formato Markdown."),
     ("initial_message",
      "Ciao! Sono Prometheus. Qual \u221A\u00AE la tua idea di base?"),
     ("error_create_directory",
      "ERRORE: Impossibile creare la directory: \x7berror\x7d"),
     ("error_not_directory",
      "ERRORE: Il percorso fornito esiste ma non \u221A\u00AE una directory."),
     ("error_no_working_dir",
      "ERRORE CRITICO: Non posso avviare lo sviluppo senza una directory di lavoro impostata. Per favore, fornisci un percorso valido."),
     ("error_no_working_dir_set",
      "ERRORE: La directory di lavoro non \u221A\u00AE impostata."),
     ("success_directory_created",
      "OK. La directory non esisteva, l\u0027ho creata e la user\u221A\u2264: \u0060\x7bpath\x7d\u0060"),
     ("success_directory_exists",
      "OK, user\u221A\u2264 la directory esistente: \u0060\x7bpath\x7d\u0060")]),
   ("en",
    [("system_instruction",
      "You are a software architect named Prometheus. Your task is to talk with the user to define the specifications for an application. Be concise and direct. Provide short, targeted answers. Elaborate only if the user explicitly asks you to. If the user asks for advice, explain the options clearly and provide a reasoned recommendation. Your output must be in Markdown format."),
     ("initial_message",
      "Hello! I\u0027m Prometheus. What\u0027s your core idea?"),
     ("error_create_directory",
      "ERROR: Unable to create directory: \x7berror\x7d"),
     ("error_not_directory",
      "ERROR: The provided path exists but is not a directory."),
     ("error_no_working_dir",
      "CRITICAL ERROR: Cannot start development without a working directory set. Please provide a valid path."),
     ("error_no_working_dir_set",
      "ERROR: The working directory is not set."),
     ("success_directory_created",
      "OK. The directory didn\u0027t exist, I created it and will use: \u0060\x7bpath\x7d\u0060"),
     ("success_directory_exists",
      "OK, I will use the existing directory: \u0060\x7bpath\x7d\u0060")])]

/-- Lookup `PROMPTS[lang][key]`. -/
def promptText (lang key : String) : String :=
  match PROMPTS.find? (fun p => p.1 = lang) with
  | some p =>
    match p.2.find? (fun q => q.1 = key) with
    | some q => q.2
    | none => ""
  | none => ""

/-- Mutable fields of the `Orchestrator` object that the verified claims
touch (phase, status, counters, provider-fallback state, history). -/
structure Orch where
  sessionId : String
  lang : String
  architectLlm : String
  tddMode : Bool
  workingDirectory : Option String
  isRunning : Bool
  consecutiveCompletionSignals : Nat
  maxConsecutiveCompletions : Nat
  totalCycles : Nat
  maxTotalCycles : Nat
  status : String
  originalArchitect : String
  currentArchitect : String
  fallbackActive : Bool
  fallbackReason : Option String
  mode : String
  projectPlan : Option String
  conversationHistory : List String
  deriving Repr, DecidableEq

/-- Fresh-session path of `Orchestrator.__init__` (no saved session file),
including the initial history entry appended by
`_setup_initial_chat_session`. -/
def orchInit (session_id lang architect_llm : String) : Orch :=
  let lang1 := if (PROMPTS.find? (fun p => p.1 = lang)).isSome then lang else "en"
  { sessionId := session_id
    lang := lang1
    architectLlm := architect_llm
    tddMode := true
    workingDirectory := none
    isRunning := false
    consecutiveCompletionSignals := 0
    maxConsecutiveCompletions := 1
    totalCycles := 0
    maxTotalCycles := 10
    status := "IDLE"
    originalArchitect := architect_llm
    currentArchitect := architect_llm
    fallbackActive := false
    fallbackReason := none
    mode := "BRAINSTORMING"
    projectPlan := none
    conversationHistory := ["[Prometheus]: " ++ promptText lang1 "initial_message"] }

/-! ## Provider calls with fallback (`_get_architect_response`,
orchestrator.py lines 2208-2429)

The outcome of one Gemini API call is a parameter (`GeminiOutcome`): the
call either produces a response object or raises an exception carrying a
message.  The Claude CLI is invoked through `_run_claude_with_prompt`,
which catches its own subprocess timeout and classification failures and
returns an error *string* on every path (see `run_claude_with_prompt`
below and `run_claude_surfaces_after_max_retries`); its outcome is
therefore a `String`.  The source additionally installs an
`except subprocess.TimeoutExpired` handler around the Claude section;
the `ClaudeCall.raisesTimeout` constructor models the input of that handler so
the branch is part of the embedding even though the runner cannot
produce it.  Raised exceptions are modelled as `Except.error` carrying
the message; the `except Exception` handler of the source (lines 2314-2320)
post-processes every error raised inside the Claude `try` block. -/

inductive GeminiOutcome where
  | success (text : String)
  | failure (excMsg : String)
  deriving Repr, DecidableEq

inductive ClaudeCall where
  | returns (response : String)
  | raisesTimeout
  deriving Repr, DecidableEq

/-- Model of `Orchestrator._is_claude_limit_error` (lines 2322-2330). -/
def is_claude_limit_error (response : String) : Bool :=
  if response = "" then false
  else
    let response_lower := lowerStr response
    ["limit reached", "usage limit", "daily limit", "too many requests",
     "rate limit"].any (fun phrase => strHas response_lower phrase)

/-- Model of `Orchestrator._attempt_fallback_to_claude` (lines 2366-2392):
switch state to Claude, then call the Claude runner; the runner always
returns a string, so the `except` branch re-raising the both-failed
message is unreachable and the call result is returned as the response. -/
def attempt_fallback_to_claude (st : Orch) (error_type : String) (claudeResult : String) :
    Except String String × Orch :=
  let st1 := { st with fallbackActive := true, currentArchitect := "claude",
                       fallbackReason := some error_type }
  (.ok claudeResult, st1)

/-- Model of `Orchestrator._attempt_fallback_to_gemini` (lines 2394-2429).
When Gemini is unavailable the both-failed error is raised *before* any
state change; otherwise the state switches to Gemini and the retry either
succeeds or raises the both-failed error. -/
def attempt_fallback_to_gemini (st : Orch) (geminiAvailable : Bool) (error_type : String)
    (geminiRetry : GeminiOutcome) : Except String String × Orch :=
  if !geminiAvailable then
    (.error (get_user_message "both_failed" st.lang none), st)
  else
    let st1 := { st with fallbackActive := true, currentArchitect := "gemini",
                         fallbackReason := some error_type }
    match geminiRetry with
    | .success t => (.ok (trimStr t), st1)
    | .failure _ => (.error (get_user_message "both_failed" st1.lang none), st1)

/-- Model of `Orchestrator._get_architect_response` (lines 2208-2320).
`geminiAvailable` models `_lazy_import_gemini() and self.model`;
`geminiOutcome` is the primary Gemini call, `geminiRetry` the Gemini call
a fallback would make, `claudeCall` the primary Claude runner call and
`claudeFallbackResult` the Claude runner call a fallback would make. -/
def get_architect_response (st : Orch) (geminiAvailable : Bool)
    (geminiOutcome geminiRetry : GeminiOutcome) (claudeCall : ClaudeCall)
    (claudeFallbackResult : String) : Except String String × Orch :=
  if st.currentArchitect = "gemini" ∧ geminiAvailable = true then
    match geminiOutcome with
    | .success t => (.ok (trimStr t), st)
    | .failure e =>
      let error_type := detect_error_type (some e) none
      if should_attempt_fallback error_type && !st.fallbackActive then
        attempt_fallback_to_claude st error_type claudeFallbackResult
      else if st.fallbackActive then
        (.error (get_user_message "both_failed" st.lang none), st)
      else
        (.error (get_user_message error_type st.lang none), st)
  else
    match claudeCall with
    | .raisesTimeout =>
      if !st.fallbackActive && st.currentArchitect = "claude" then
        attempt_fallback_to_gemini st geminiAvailable "connection_error" geminiRetry
      else
        (.error (get_user_message "connection_error" st.lang none), st)
    | .returns claude_response =>
      let inner : Except String String × Orch :=
        if is_claude_limit_error claude_response then
          let error_type := detect_error_type (some claude_response) none
          if should_attempt_fallback error_type && !st.fallbackActive then
            attempt_fallback_to_gemini st geminiAvailable error_type geminiRetry
          else if st.fallbackActive then
            (.error (get_user_message "both_failed" st.lang none), st)
          else
            (.error (get_user_message error_type st.lang none), st)
        else
          (.ok claude_response, st)
      match inner with
      | (.ok t, st1) => (.ok t, st1)
      | (.error e, st1) =>
        if strHas (lowerStr e) "limit reached" && !st1.fallbackActive then
          attempt_fallback_to_gemini st1 geminiAvailable "usage_limit" geminiRetry
        else
          (.error e, st1)

/-! ## Claims C1 and C2: fallback-controller invariants -/

/-- Claim C1: once `fallbackActive` is true, a provider-call invocation never
switches `current_architect` again, and any further provider error (a raised
Gemini exception, or a Claude response recognised as a limit error) yields
the terminal both-providers-exhausted error. -/
theorem c1_no_double_fallback (st : Orch) (geminiAvailable : Bool)
    (geminiOutcome geminiRetry : GeminiOutcome) (claudeCall : ClaudeCall)
    (claudeFallbackResult : String)
    (hfb : st.fallbackActive = true) :
    (get_architect_response st geminiAvailable geminiOutcome geminiRetry claudeCall
        claudeFallbackResult).2.currentArchitect = st.currentArchitect
    ∧ (∀ e, (st.currentArchitect = "gemini" ∧ geminiAvailable = true) →
        geminiOutcome = .failure e →
        (get_architect_response st geminiAvailable geminiOutcome geminiRetry claudeCall
            claudeFallbackResult).1 = .error (get_user_message "both_failed" st.lang none))
    ∧ (∀ s, ¬ (st.currentArchitect = "gemini" ∧ geminiAvailable = true) →
        claudeCall = .returns s → is_claude_limit_error s = true →
        (get_architect_response st geminiAvailable geminiOutcome geminiRetry claudeCall
            claudeFallbackResult).1 = .error (get_user_message "both_failed" st.lang none)) := by
  refine ⟨?_, ?_, ?_⟩
  · unfold get_architect_response
    by_cases hg : st.currentArchitect = "gemini" ∧ geminiAvailable = true
    · rw [if_pos hg]
      cases geminiOutcome with
      | success t => rfl
      | failure e => simp [hfb]
    · rw [if_neg hg]
      cases claudeCall with
      | raisesTimeout => simp [hfb]
      | returns resp =>
          by_cases hlim : is_claude_limit_error resp = true
          · simp [hlim, hfb]
          · simp [hlim, hfb]
  · intro e hg hout
    subst hout
    unfold get_architect_response
    rw [if_pos hg]
    simp [hfb]
  · intro s hg hcall hlim
    subst hcall
    unfold get_architect_response
    rw [if_neg hg]
    simp [hlim, hfb]

/-- A session mid-fallback-episode: the original Gemini architect has already
fallen back to Claude, so `fallbackActive` is set. -/
def fallbackSessionEx : Orch :=
  { orchInit "s1" "en" "gemini" with
      currentArchitect := "claude", fallbackActive := true,
      fallbackReason := some "rate_limit" }

/-- Claim C1 witness: the no-double-fallback theorem applied to a concrete
mid-fallback session whose Claude call returns a usage-limit error text. -/
theorem c1_witness :
    fallbackSessionEx.fallbackActive = true
    ∧ (get_architect_response fallbackSessionEx false (.success "") (.success "")
        (.returns "Usage limit reached for today.") "").1
        = .error (get_user_message "both_failed" fallbackSessionEx.lang none)
    ∧ (get_architect_response fallbackSessionEx false (.success "") (.success "")
        (.returns "Usage limit reached for today.") "").2.currentArchitect
        = fallbackSessionEx.currentArchitect := by
  refine ⟨rfl, ?_, ?_⟩
  · exact (c1_no_double_fallback fallbackSessionEx false (.success "") (.success "")
      (.returns "Usage limit reached for today.") "" rfl).2.2
      "Usage limit reached for today." (by decide) rfl (by decide)
  · exact (c1_no_double_fallback fallbackSessionEx false (.success "") (.success "")
      (.returns "Usage limit reached for today.") "" rfl).1

/-- Claim C2 counterexample: a fully successful provider call made while
`fallbackActive` is true returns its response and leaves `fallbackActive`
still true, refuting the claim that `fallbackActive` is false immediately
after any successful provider call. -/
theorem c2_counterexample :
    (get_architect_response fallbackSessionEx false (.success "") (.success "")
        (.returns "Done implementing the feature.") "").1
      = .ok "Done implementing the feature."
    ∧ (get_architect_response fallbackSessionEx false (.success "") (.success "")
        (.returns "Done implementing the feature.") "").2.fallbackActive = true := by
  constructor <;> rfl

/-- Claim C2 amended: `fallbackActive` is never cleared by the provider-call
operation: every invocation of `_get_architect_response` entered with
`fallbackActive = true` — in particular every fully successful call — exits
with `fallbackActive` still true; only fresh-session initialisation and
state/checkpoint reloads reset it. -/
theorem c2_fallback_latch_never_cleared (st : Orch) (geminiAvailable : Bool)
    (geminiOutcome geminiRetry : GeminiOutcome) (claudeCall : ClaudeCall)
    (claudeFallbackResult : String) (hfb : st.fallbackActive = true) :
    (get_architect_response st geminiAvailable geminiOutcome geminiRetry claudeCall
        claudeFallbackResult).2.fallbackActive = true := by
  unfold get_architect_response
  by_cases hg : st.currentArchitect = "gemini" ∧ geminiAvailable = true
  · rw [if_pos hg]
    cases geminiOutcome with
    | success t => exact hfb
    | failure e => simp [hfb]
  · rw [if_neg hg]
    cases claudeCall with
    | raisesTimeout => simp [hfb]
    | returns resp =>
        by_cases hlim : is_claude_limit_error resp = true
        · simp [hlim, hfb]
        · simp [hlim, hfb]

/-- Claim C2 amended-theorem witness at a concrete mid-fallback session. -/
theorem c2_witness :
    fallbackSessionEx.fallbackActive = true
    ∧ (get_architect_response fallbackSessionEx false (.success "") (.success "")
        (.returns "Done implementing the feature.") "").2.fallbackActive = true :=
  ⟨rfl, c2_fallback_latch_never_cleared fallbackSessionEx false (.success "") (.success "")
      (.returns "Done implementing the feature.") "" rfl⟩

/-! ## Claude CLI runner (`_run_claude_with_prompt`, orchestrator.py lines
1610-1889, `_classify_claude_error` lines 1892-1989, and
`_retry_claude_with_backoff` lines 2057-2071)

The observable outcome of one subprocess attempt is a parameter
(`SubprocessOutcome`); `outcomes k` is the outcome of the attempt with
`retry_count = k`.  Logging, tracing, resource monitoring, progress
feedback and the backoff sleep have no control-flow effect and are
omitted; the prompt influences control flow only through its length, so
it is modelled as `promptLen`.  The function returns the result string
paired with the index of the attempt at which it returned — the second
component is instrumentation used to state the retry bound, not part of
the source signature. -/

/-- The fixed timeout ladder (line 1635). -/
def timeout_levels : List Nat := [60, 120, 300]

inductive SubprocessOutcome where
  | timedOut
  | completed (returncode : Int) (stdout stderr : String)
  | spawnNotFound
  | raisedOther (msg : String)
  deriving Repr, DecidableEq

/-- The ordered indicator table of `_classify_claude_error` (insertion order
of the Python dict, which drives the first-match loop). -/
def error_diagnostics : List (String × String) :=
  [("timeout", "temporary"),
   ("connection", "temporary"),
   ("network", "temporary"),
   ("rate limit", "temporary"),
   ("server error", "temporary"),
   ("503", "temporary"),
   ("permission", "permanent"),
   ("authentication", "permanent"),
   ("401", "permanent"),
   ("not found", "permanent"),
   ("invalid", "permanent")]

/-- Model of `_classify_claude_error(stderr_output, return_code)`: first
matching indicator wins; anything unmatched defaults to temporary. -/
def classify_claude_error (stderr_output : Option String) (_return_code : Int) : String :=
  let stderr_lower := match stderr_output with
    | some s => if s = "" then "" else lowerStr s
    | none => ""
  match error_diagnostics.find? (fun p => strHas stderr_lower p.1) with
  | some p => p.2
  | none => "temporary"

/-- The timeout used by the attempt with the given `retry_count`
(lines 1634-1658): the first attempt consults the optional timeout
predictor (`should_skip_lower_timeouts`, modelled as a function from the
prompt length to the skip flag and recommended timeout) and otherwise
uses the initial `timeout` argument; when the predictor is absent or on
every retry, the progressive ladder `timeout_levels[min(retry_count, 2)]`
is used. -/
def current_timeout_for (timeout_predictor : Option (Nat → Bool × Nat)) (promptLen : Nat)
    (timeout : Nat) (retry_count : Nat) : Nat :=
  match timeout_predictor, retry_count with
  | some p, 0 =>
    if (p promptLen).1 then (p promptLen).2 else timeout
  | _, _ => timeout_levels.getD (min retry_count (timeout_levels.length - 1)) 0

/-- Model of `_run_claude_with_prompt` composed with
`_retry_claude_with_backoff` (which increments `retry_count`, sleeps, and
re-invokes the runner with the current timeout).  Every branch returns a
string: the internal `raise subprocess.TimeoutExpired` at max retries is
caught by the `except subprocess.TimeoutExpired` handler of the function itself,
which returns the timeout error message. -/
def run_claude_with_prompt (outcomes : Nat → SubprocessOutcome)
    (timeout_predictor : Option (Nat → Bool × Nat)) (promptLen : Nat)
    (timeout : Nat) (retry_count max_retries : Nat) : String × Nat :=
  let current_timeout := current_timeout_for timeout_predictor promptLen timeout retry_count
  match outcomes retry_count with
  | .timedOut =>
    if h : retry_count < max_retries then
      run_claude_with_prompt outcomes timeout_predictor promptLen current_timeout
        (retry_count + 1) max_retries
    else
      ("Errore: Claude command timed out after " ++ toString current_timeout ++ " seconds",
       retry_count)
  | .completed returncode stdout stderr =>
    if returncode ≠ 0 then
      let error_msg := "Errore: Claude command failed (code " ++ toString returncode ++ "): "
        ++ stderr
      let error_type := classify_claude_error (some stderr) returncode
      if h : error_type = "temporary" ∧ retry_count < max_retries then
        run_claude_with_prompt outcomes timeout_predictor promptLen current_timeout
          (retry_count + 1) max_retries
      else
        (error_msg, retry_count)
    else
      (trimStr stdout, retry_count)
  | .spawnNotFound =>
    ("Errore: Claude CLI not found. Please install Claude Code CLI.", retry_count)
  | .raisedOther msg =>
    ("Errore: Unexpected error: " ++ msg, retry_count)
  termination_by max_retries + 1 - retry_count
  decreasing_by
    all_goals omega

/-- Helper: the attempt index at which the runner returns never exceeds
`max_retries` when it starts within the bound. -/
theorem run_claude_final_attempt_le (outcomes : Nat → SubprocessOutcome)
    (timeout_predictor : Option (Nat → Bool × Nat)) (promptLen : Nat) :
    ∀ (n timeout retry_count max_retries : Nat), retry_count ≤ max_retries →
      max_retries - retry_count = n →
      (run_claude_with_prompt outcomes timeout_predictor promptLen timeout retry_count
        max_retries).2 ≤ max_retries := by
  intro n
  induction n with
  | zero =>
      intro t rc mr hle h0
      have heq : rc = mr := by omega
      subst heq
      unfold run_claude_with_prompt
      cases houtc : outcomes rc with
      | timedOut => simp [houtc]
      | completed returncode stdout stderr =>
          simp only [houtc]
          by_cases hz : returncode = 0
          · rw [if_neg (by simp [hz])]
          · rw [if_pos hz]
            rw [dif_neg (fun hh => absurd hh.2 (lt_irrefl rc))]
      | spawnNotFound => simp [houtc]
      | raisedOther msg => simp [houtc]
  | succ n ih =>
      intro t rc mr hle hsn
      have hlt : rc < mr := by omega
      unfold run_claude_with_prompt
      cases houtc : outcomes rc with
      | timedOut =>
          simp only [houtc]
          rw [dif_pos hlt]
          exact ih _ _ _ (by omega) (by omega)
      | completed returncode stdout stderr =>
          simp only [houtc]
          by_cases hz : returncode = 0
          · rw [if_neg (by simp [hz])]
            exact hle
          · rw [if_pos hz]
            by_cases htemp : classify_claude_error (some stderr) returncode = "temporary"
            · rw [dif_pos ⟨htemp, hlt⟩]
              exact ih _ _ _ (by omega) (by omega)
            · rw [dif_neg (fun hh => htemp hh.1)]
              exact hle
      | spawnNotFound => simp [houtc]; omega
      | raisedOther msg => simp [houtc]; omega

/-- Claim C7: retries use the fixed escalating timeout ladder
(120 s for the first retry, 300 s from the second on, starting from the
60 s default first attempt when the predictor does not override it), the
runner is a total function whose final attempt index is bounded by
`max_retries`, and a permanent error classification returns the error
immediately with no further attempt. -/
theorem c7_retry_controller :
    (∀ (p : Option (Nat → Bool × Nat)) (promptLen t : Nat),
        current_timeout_for p promptLen t 1 = 120
        ∧ (∀ k, 2 ≤ k → current_timeout_for p promptLen t k = 300))
    ∧ (∀ promptLen, current_timeout_for none promptLen 60 0 = 60)
    ∧ (∀ (pf : Nat → Bool × Nat) (promptLen : Nat), (pf promptLen).1 = false →
        current_timeout_for (some pf) promptLen 60 0 = 60)
    ∧ (∀ (outcomes : Nat → SubprocessOutcome) (p : Option (Nat → Bool × Nat))
        (promptLen t rc mr : Nat), rc ≤ mr →
        (run_claude_with_prompt outcomes p promptLen t rc mr).2 ≤ mr)
    ∧ (∀ (outcomes : Nat → SubprocessOutcome) (p : Option (Nat → Bool × Nat))
        (promptLen t rc mr : Nat) (returncode : Int) (stdout stderr : String),
        outcomes rc = .completed returncode stdout stderr → returncode ≠ 0 →
        classify_claude_error (some stderr) returncode = "permanent" →
        run_claude_with_prompt outcomes p promptLen t rc mr
          = ("Errore: Claude command failed (code " ++ toString returncode ++ "): " ++ stderr,
             rc)) := by
  refine ⟨?_, ?_, ?_, ?_, ?_⟩
  · intro p promptLen t
    constructor
    · cases p <;> rfl
    · intro k hk
      match p, k, hk with
      | none, (k + 2), _ =>
          show timeout_levels.getD (min (k + 2) 2) 0 = 300
          have hmin : min (k + 2) 2 = 2 := by omega
          rw [hmin]
          rfl
      | some pf, (k + 2), _ =>
          show timeout_levels.getD (min (k + 2) 2) 0 = 300
          have hmin : min (k + 2) 2 = 2 := by omega
          rw [hmin]
          rfl
  · intro promptLen; rfl
  · intro pf promptLen hskip
    simp [current_timeout_for, hskip]
  · intro outcomes p promptLen t rc mr hle
    exact run_claude_final_attempt_le outcomes p promptLen (mr - rc) t rc mr hle rfl
  · intro outcomes p promptLen t rc mr returncode stdout stderr houtc hz hperm
    unfold run_claude_with_prompt
    simp only [houtc]
    rw [if_pos hz]
    rw [dif_neg (fun hh => by rw [hperm] at hh; exact absurd hh.1 (by decide))]

/-- Claim C7 witness: concrete runs — a permanently failing attempt stops at
attempt 0, and an always-timing-out run finishes within the retry bound. -/
theorem c7_witness :
    current_timeout_for none 5 60 1 = 120
    ∧ (0 : Nat) ≤ 3
    ∧ (run_claude_with_prompt (fun _ => .timedOut) none 5 60 0 3).2 ≤ 3
    ∧ ((fun _ => SubprocessOutcome.completed 1 "" "authentication failed") 0
        = SubprocessOutcome.completed 1 "" "authentication failed")
    ∧ (1 : Int) ≠ 0
    ∧ classify_claude_error (some "authentication failed") 1 = "permanent"
    ∧ run_claude_with_prompt (fun _ => .completed 1 "" "authentication failed") none 5 60 0 3
        = ("Errore: Claude command failed (code " ++ toString (1 : Int) ++ "): "
            ++ "authentication failed", 0) := by
  refine ⟨(c7_retry_controller.1 none 5 60).1, by decide, ?_, rfl, by decide, by decide, ?_⟩
  · exact c7_retry_controller.2.2.2.1 (fun _ => .timedOut) none 5 60 0 3 (by decide)
  · exact c7_retry_controller.2.2.2.2 (fun _ => .completed 1 "" "authentication failed")
      none 5 60 0 3 1 "" "authentication failed" rfl (by decide) (by decide)

/-! ## Completion detector (`_detect_project_completion`,
orchestrator.py lines 2900-3036)

The method reads `self.mode` and `self.conversation_history` and scans the
response text; it is embedded as a pure function of those three values.
(The `output_queue.put` it performs on the explicit keyword is an output
side effect with no influence on the returned Boolean.) -/

def simple_changes : List String :=
  ["colore",
   "color",
   "sostituisci",
   "replace",
   "cambia",
   "change",
   "modifica",
   "modify",
   "aggiorna",
   "update",
   "viola",
   "giallo",
   "rosso",
   "blu",
   "green",
   "purple",
   "yellow",
   "red",
   "blue"]

def simple_completion_indicators : List String :=
  ["sostituito",
   "replaced",
   "cambiato",
   "changed",
   "aggiornato",
   "updated",
   "modificato",
   "modified",
   "applicato",
   "applied",
   "implementato",
   "implemented"]

def completion_phrases : List String :=
  ["applicazione completata",
   "progetto completato",
   "progetto completo",
   "completamente implementata",
   "completamente funzionante",
   "implementazione completata",
   "pronto all\u0027uso",
   "pronta per l\u0027uso",
   "implementation complete",
   "application completed",
   "ready to use",
   "fully functional",
   "project completed",
   "tutto implementato",
   "all features implemented",
   "completata con",
   "completo e funzionante",
   "\u221A\u00AE funzionale",
   "modificata correttamente",
   "modifica applicata",
   "modifica completata",
   "changed successfully",
   "change completed"]

def repetition_phrases : List String :=
  ["the directory appears to be empty",
   "l\u0027applicazione \u221A\u00AE gi\u221A\u2020",
   "\u221A\u00AE gi\u221A\u2020 implementata",
   "\u221A\u00AE gi\u221A\u2020 completa",
   "gi\u221A\u2020 completa e funzionante",
   "applicazione \u221A\u00AE gi\u221A\u2020 completa",
   "already implemented",
   "already complete",
   "gi\u221A\u2020 completamente implementata",
   "progetto \u221A\u00AE pronto",
   "tutto \u221A\u00AE implementato",
   "progetto \u221A\u00AE gi\u221A\u2020 completo",
   "already exists and contains exactly",
   "file gi\u221A\u2020 stato creato correttamente",
   "secondo le specifiche",
   "html file already exists",
   "exactly what was requested",
   "project is complete according",
   "meets the specifications",
   "il bottone \u221A\u00AE gi\u221A\u2020 implementato",
   "progetto \u221A\u00AE completo secondo",
   "looking at the current state",
   "i understand you\u0027ve completed",
   "following the decision tree",
   "files esistenti:",
   "status generale:",
   "claude confirmed implementation",
   "the jest configuration",
   "no tests found",
   "implementation completed",
   "red button has been implemented",
   "bottone.html exists",
   "since we have a working html file"]

/-- Model of `Orchestrator._detect_project_completion(claude_response)`. -/
def detect_project_completion (mode : String) (conversation_history : List String)
    (claude_response : String) : Bool :=
  if claude_response = "" then false
  else if mode = "BRAINSTORMING" then false
  else if strHas (lowerStr claude_response) (lowerStr "[PROMETHEUS_COMPLETE]") then true
  else
    let response_lower := lowerStr claude_response
    let recent_messages :=
      lowerStr (String.intercalate " "
        (conversation_history.drop (conversation_history.length - 3)))
    let is_simple_change :=
      if conversation_history.isEmpty then false
      else simple_changes.any (fun word => strHas recent_messages word)
    if is_simple_change
        && simple_completion_indicators.any (fun word => strHas response_lower word) then
      true
    else
      let completion_detected :=
        completion_phrases.any (fun phrase => strHas response_lower phrase)
      let repetition_detected :=
        repetition_phrases.any (fun phrase => strHas response_lower phrase)
      completion_detected || repetition_detected

/-- Claim C9: in BRAINSTORMING mode the completion detector returns false for
every response text, including texts containing the explicit
`[PROMETHEUS_COMPLETE]` marker or any completion or repetition phrase;
completion can only be signalled outside BRAINSTORMING mode. -/
theorem c9_no_completion_in_brainstorming (conversation_history : List String)
    (claude_response : String) :
    detect_project_completion "BRAINSTORMING" conversation_history claude_response = false := by
  unfold detect_project_completion
  by_cases hempty : claude_response = ""
  · rw [if_pos hempty]
  · rw [if_neg hempty, if_pos rfl]

/-! ## Question detector (`_detect_user_question`, orchestrator.py lines
3038-3088)

The option-list patterns are tested with `re.search(pattern,
response_lower, re.DOTALL)`.  The Python `re` module rejects, at pattern
compile time, a quantifier applied to another quantifier ("multiple
repeat") or a quantifier with nothing to repeat; `re.search` then raises
`re.error`.  The patterns used by this method contain only literals,
backslash escapes, `.` and `*`, so `re.search` is embedded by a matcher
over exactly that fragment, with compile failures surfaced as
`Except.error` (carrying the Python error category as the message). -/

def question_patterns : List String :=
  ["come vuoi procedere?",
   "quale preferisci?",
   "che cosa scegli?",
   "vuoi che proceda",
   "how do you want to proceed",
   "which option do you prefer",
   "what would you like me to do",
   "which do you prefer",
   "should i proceed with",
   "what should i do next",
   "please let me know"]

def option_list_patterns : List String :=
  ["1\\.**.*2\\.**",
   "opzione 1.*opzione 2",
   "option 1.*option 2",
   "**1.**.*2.**",
   "\\*\\*opzioni\\*\\*",
   "**options**"]

/-- Token of the regex fragment used by the option-list patterns. -/
inductive RTok where
  | lit (c : Char)
  | anyc
  | star (t : RTok)
  deriving Repr, DecidableEq

/-- Compile the pattern, rejecting a quantifier with nothing to repeat and a
quantifier applied to a quantifier, as Python `re` does. -/
def parseRegexAux : List Char → List RTok → Except String (List RTok)
  | [], acc => .ok acc.reverse
  | '\\' :: c :: rest, acc => parseRegexAux rest (.lit c :: acc)
  | ['\\'], _ => .error "bad escape (end of pattern)"
  | '*' :: rest, acc =>
    match acc with
    | [] => .error "nothing to repeat"
    | .star _ :: _ => .error "multiple repeat"
    | t :: acc1 => parseRegexAux rest (.star t :: acc1)
  | '.' :: rest, acc => parseRegexAux rest (.anyc :: acc)
  | c :: rest, acc => parseRegexAux rest (.lit c :: acc)

/-- Does a single (non-star) token match one character?  With `re.DOTALL`,
`.` matches every character. -/
def rtokMatches : RTok → Char → Bool
  | .lit p, c => p == c
  | .anyc, _ => true
  | .star _, _ => false

/-- Backtracking matcher anchored at the start of the character list. -/
def matchHere : List RTok → List Char → Bool
  | [], _ => true
  | .star t :: ts, s =>
    matchHere ts s ||
      (match s with
       | [] => false
       | c :: cs => rtokMatches t c && matchHere (.star t :: ts) cs)
  | .lit p :: ts, c :: cs => p == c && matchHere ts cs
  | .anyc :: ts, _ :: cs => matchHere ts cs
  | _ :: _, [] => false
  termination_by ts s => (s.length, ts.length)

/-- Unanchored search: does the token list match at some position? -/
def searchSuffixes (toks : List RTok) : List Char → Bool
  | [] => matchHere toks []
  | c :: cs => matchHere toks (c :: cs) || searchSuffixes toks cs

/-- Model of `re.search(pattern, s, re.DOTALL)` over the regex fragment:
`Except.error` models the `re.error` raised on an invalid pattern, `.ok b`
tells whether a match exists. -/
def reSearch (pattern s : String) : Except String Bool :=
  match parseRegexAux pattern.data [] with
  | .error e => .error e
  | .ok toks => .ok (searchSuffixes toks s.data)

/-- The `for pattern in option_list_patterns: if re.search(...)` loop:
the first `re.search` call that raises aborts the whole method. -/
def searchAnyPattern : List String → String → Except String Bool
  | [], _ => .ok false
  | p :: ps, s =>
    match reSearch p s with
    | .error e => .error e
    | .ok true => .ok true
    | .ok false => searchAnyPattern ps s

/-- Model of `Orchestrator._detect_user_question(claude_response)`.
`Except.error` models an uncaught exception escaping the method. -/
def detect_user_question (claude_response : String) : Except String Bool :=
  if claude_response = "" then .ok false
  else
    let response_lower := lowerStr claude_response
    match searchAnyPattern option_list_patterns response_lower with
    | .error e => .error e
    | .ok true => .ok true
    | .ok false =>
      if question_patterns.any (fun pattern => strHas response_lower pattern) then .ok true
      else
        match reSearch "come procedo\\?.*1\\..*2\\..*3\\." response_lower with
        | .error e => .error e
        | .ok b => .ok b

/-- The first option-list pattern `"1\\.**.*2\\.**"` contains a doubled
quantifier, so its compilation fails and `_detect_user_question` raises for
every non-empty response. -/
theorem detect_user_question_raises (r : String) (h : ¬ r = "") :
    detect_user_question r = .error "multiple repeat" := by
  unfold detect_user_question
  rw [if_neg h]
  rfl

/-! ## Build-loop cycles (`_development_loop` lines 3161-3284,
`_development_loop_with_feedback` lines 3286-3361,
`_development_loop_recovery` lines 3363-3408)

One iteration of each `while self.is_running` loop is embedded as a
function from the session state (plus the loop-local error-tracking
variables for the first loop) and the chunk list produced by
`handle_development_step` to the updated state and to the
outcome of the iteration.  Queue events, `save_state` persistence and the inter-cycle
sleep are I/O without control-flow effect and are omitted; checkpoint
save/cleanup calls are reported as result flags.  An uncaught exception
(`CycleOutcome.crashed`) aborts the loop and kills the worker thread. -/

inductive CycleOutcome where
  | continued
  | pausedQuestion
  | completedProject
  | failsafeCycles
  | failsafeErrors
  | crashed (excMsg : String)
  deriving Repr, DecidableEq

/-- The loop-local variables of `_development_loop`. -/
structure LoopLocals where
  consecutive_errors : Nat
  last_error_message : String
  deriving Repr, DecidableEq

structure CycleResult where
  st : Orch
  loc : LoopLocals
  outcome : CycleOutcome
  cleanupCheckpoint : Bool
  deriving Repr, DecidableEq

/-- Python `s[-n:]`. -/
def lastChars (n : Nat) (s : String) : String :=
  String.mk (s.data.drop (s.data.length - n))

/-- One iteration of `_development_loop` (lines 3193-3280). -/
def development_loop_body (st0 : Orch) (loc0 : LoopLocals) (chunks : List String) :
    CycleResult :=
  let st1 := { st0 with totalCycles := st0.totalCycles + 1 }
  if st1.totalCycles > st1.maxTotalCycles then
    { st := { st1 with isRunning := false }, loc := loc0, outcome := .failsafeCycles,
      cleanupCheckpoint := false }
  else if 3 ≤ loc0.consecutive_errors then
    { st := { st1 with isRunning := false }, loc := loc0, outcome := .failsafeErrors,
      cleanupCheckpoint := false }
  else
    let step_response := String.join chunks
    let step_had_error :=
      chunks.any (fun chunk => strHas chunk "**ERRORE" || strHas chunk "[STDERR]")
    let st2 :=
      if ¬ trimStr step_response = "" then
        { st1 with conversationHistory :=
            st1.conversationHistory ++ ["[Prometheus]: " ++ step_response] }
      else st1
    let loc1 :=
      if step_had_error then
        let current_error :=
          if 200 < step_response.data.length then lastChars 200 step_response
          else step_response
        if current_error = loc0.last_error_message then
          { loc0 with consecutive_errors := loc0.consecutive_errors + 1 }
        else
          { consecutive_errors := 1, last_error_message := current_error }
      else
        { consecutive_errors := 0, last_error_message := "" }
    match detect_user_question step_response with
    | .error e =>
      { st := st2, loc := loc1, outcome := .crashed e, cleanupCheckpoint := false }
    | .ok true =>
      { st := { st2 with isRunning := false }, loc := loc1, outcome := .pausedQuestion,
        cleanupCheckpoint := false }
    | .ok false =>
      if detect_project_completion st2.mode st2.conversationHistory step_response then
        let st3 := { st2 with
          consecutiveCompletionSignals := st2.consecutiveCompletionSignals + 1 }
        if st3.maxConsecutiveCompletions ≤ st3.consecutiveCompletionSignals then
          { st := { st3 with isRunning := false }, loc := loc1, outcome := .completedProject,
            cleanupCheckpoint := true }
        else
          { st := st3, loc := loc1, outcome := .continued, cleanupCheckpoint := false }
      else
        { st := { st2 with consecutiveCompletionSignals := 0 }, loc := loc1,
          outcome := .continued, cleanupCheckpoint := false }

structure FeedbackCycleResult where
  st : Orch
  outcome : CycleOutcome
  savedCheckpoint : Bool
  cleanupCheckpoint : Bool
  deriving Repr, DecidableEq

/-- One iteration of `_development_loop_with_feedback` (lines 3295-3358):
like the plain loop but with a periodic checkpoint save, a checkpoint
cleanup on the cycle-cap failsafe, and no consecutive-error tracking. -/
def development_loop_with_feedback_body (st0 : Orch) (chunks : List String) :
    FeedbackCycleResult :=
  let st1 := { st0 with totalCycles := st0.totalCycles + 1 }
  let saved := st1.totalCycles % 3 = 0
  if st1.totalCycles > st1.maxTotalCycles then
    { st := { st1 with isRunning := false }, outcome := .failsafeCycles,
      savedCheckpoint := saved, cleanupCheckpoint := true }
  else
    let step_response := String.join chunks
    let st2 :=
      if ¬ trimStr step_response = "" then
        { st1 with conversationHistory :=
            st1.conversationHistory ++ ["[Prometheus]: " ++ step_response] }
      else st1
    match detect_user_question step_response with
    | .error e =>
      { st := st2, outcome := .crashed e, savedCheckpoint := saved,
        cleanupCheckpoint := false }
    | .ok true =>
      { st := { st2 with isRunning := false }, outcome := .pausedQuestion,
        savedCheckpoint := saved, cleanupCheckpoint := false }
    | .ok false =>
      if detect_project_completion st2.mode st2.conversationHistory step_response then
        let st3 := { st2 with
          consecutiveCompletionSignals := st2.consecutiveCompletionSignals + 1 }
        if st3.maxConsecutiveCompletions ≤ st3.consecutiveCompletionSignals then
          { st := { st3 with isRunning := false }, outcome := .completedProject,
            savedCheckpoint := saved, cleanupCheckpoint := true }
        else
          { st := st3, outcome := .continued, savedCheckpoint := saved,
            cleanupCheckpoint := false }
      else
        { st := { st2 with consecutiveCompletionSignals := 0 }, outcome := .continued,
          savedCheckpoint := saved, cleanupCheckpoint := false }

/-- One iteration of `_development_loop_recovery` (lines 3386-3405): it runs
a development step and appends the response to the history, but updates no
counters and runs no detectors. -/
def development_loop_recovery_body (st0 : Orch) (chunks : List String) : Orch :=
  let step_response := String.join chunks
  if ¬ trimStr step_response = "" then
    { st0 with conversationHistory :=
        st0.conversationHistory ++ ["[Prometheus]: " ++ step_response] }
  else st0

/-! ## Claims C3 and C4: the invalid regex of the question detector crashes every
cycle before a pause or completion can be recorded -/

/-- A session in the autonomous development phase, as produced by a
DIALOGUE-to-BUILD transition with the constructor-default thresholds. -/
def devSessionEx : Orch :=
  { orchInit "s2" "en" "claude" with
      mode := "DEVELOPMENT", workingDirectory := some "/tmp/app",
      projectPlan := some "plan", isRunning := true, status := "RUNNING" }

/-- Claim C3 (code bug): with the default completion threshold of 1, a cycle
whose output carries the explicit completion marker would satisfy the
completion detector, but the cycle first calls the question detector, whose
invalid first regex raises, crashing the worker: the loop does not stop
cleanly, the checkpoint is not deleted, and the status field (which no code
path ever sets to COMPLETED) is untouched. -/
theorem c3_completion_cycle_crashes :
    devSessionEx.maxConsecutiveCompletions = 1
    ∧ detect_project_completion "DEVELOPMENT"
        (devSessionEx.conversationHistory
          ++ ["[Prometheus]: The project is finished. [PROMETHEUS_COMPLETE]"])
        "The project is finished. [PROMETHEUS_COMPLETE]" = true
    ∧ (development_loop_body devSessionEx ⟨0, ""⟩
        ["The project is finished. [PROMETHEUS_COMPLETE]"]).outcome
        = .crashed "multiple repeat"
    ∧ (development_loop_body devSessionEx ⟨0, ""⟩
        ["The project is finished. [PROMETHEUS_COMPLETE]"]).cleanupCheckpoint = false
    ∧ (development_loop_body devSessionEx ⟨0, ""⟩
        ["The project is finished. [PROMETHEUS_COMPLETE]"]).st.status = "RUNNING"
    ∧ (∀ (st : Orch) (loc : LoopLocals) (chunks : List String),
        (development_loop_body st loc chunks).st.status = st.status) := by
  refine ⟨rfl, by decide, rfl, rfl, rfl, ?_⟩
  intro st loc chunks
  simp only [development_loop_body]
  repeat' split
  all_goals rfl

/-- Claim C4 (code bug): on output matching both detectors, the question
check is indeed evaluated first, but it raises `re.error` (invalid first
option-list pattern) instead of returning, so the cycle crashes rather than
pausing; the completion counter is left unchanged only because the worker
died before the completion check. -/
theorem c4_question_cycle_crashes :
    strHas (lowerStr "Project completed. How do you want to proceed?")
      "how do you want to proceed" = true
    ∧ detect_project_completion "DEVELOPMENT"
        (devSessionEx.conversationHistory
          ++ ["[Prometheus]: Project completed. How do you want to proceed?"])
        "Project completed. How do you want to proceed?" = true
    ∧ detect_user_question "Project completed. How do you want to proceed?"
        = .error "multiple repeat"
    ∧ (development_loop_body devSessionEx ⟨0, ""⟩
        ["Project completed. How do you want to proceed?"]).outcome
        = .crashed "multiple repeat"
    ∧ (development_loop_body devSessionEx ⟨0, ""⟩
        ["Project completed. How do you want to proceed?"]).st.consecutiveCompletionSignals
        = devSessionEx.consecutiveCompletionSignals := by
  refine ⟨by decide, by decide, rfl, rfl, rfl⟩

/-! ## DIALOGUE-to-BUILD transition (`start_development_phase`,
orchestrator.py lines 2842-2898)

The PRP-generation call (`_get_architect_response`) is abstracted by its
outcome; queue events are returned as a list of `Option String`, with
`none` modelling the terminating `None` sentinel. -/

inductive PrpOutcome where
  | success (text : String)
  | failure (excMsg : String)
  deriving Repr, DecidableEq

/-- Model of `Orchestrator.start_development_phase`.  The Python guard
`if not self.working_directory` is true exactly for an unset directory
(the attribute is `None` or was never set to a non-empty absolute path). -/
def start_development_phase (st : Orch) (prp : PrpOutcome) : Orch × List (Option String) :=
  let out0 : List (Option String) :=
    [some "[THINKING]Sto analizzando la nostra conversazione per creare il Piano di Progetto (PRP)..."]
  match st.workingDirectory with
  | none =>
    (st, out0 ++ [some (promptText st.lang "error_no_working_dir"), none])
  | some _ =>
    let st1 := { st with mode := "DEVELOPMENT",
                         consecutiveCompletionSignals := 0, totalCycles := 0 }
    match prp with
    | .success prp_response =>
      let st2 := { st1 with
        projectPlan := some prp_response,
        conversationHistory :=
          st1.conversationHistory ++ ["[System]: PRP Generato:\n" ++ prp_response],
        isRunning := true }
      (st2,
       out0 ++
        [some ("\n\n**Piano di Progetto Finalizzato!**\n\n---\n" ++ prp_response ++ "\n---\n\n"),
         some (if st2.lang = "it" then
            "\n\uF8FF\u00FC\u00F6\u00C4 **ACCENDO I MOTORI!** Avvio del ciclo di sviluppo autonomo. Scrivi \u0027PAUSA\u0027 per interrompere.\n"
          else
            "\n\uF8FF\u00FC\u00F6\u00C4 **STARTING ENGINES!** Starting autonomous development cycle. Write \u0027STOP\u0027 to interrupt.\n")])
    | .failure e =>
      ({ st1 with mode := "BRAINSTORMING" },
       out0 ++ [some ("\n\nERRORE durante la creazione del PRP: " ++ e), none])

/-- The subset of checkpoint fields that `_load_checkpoint`
(orchestrator.py lines 3472-3502) restores into the orchestrator. -/
structure CheckpointData where
  total_cycles : Nat
  consecutive_completion_signals : Nat
  tdd_mode : Bool
  architect_llm : String
  current_architect : String
  fallback_active : Bool
  deriving Repr, DecidableEq

/-- The state restoration performed by a successful `_load_checkpoint`. -/
def load_checkpoint_apply (st : Orch) (ck : CheckpointData) : Orch :=
  { st with totalCycles := ck.total_cycles,
            consecutiveCompletionSignals := ck.consecutive_completion_signals,
            tddMode := ck.tdd_mode,
            architectLlm := ck.architect_llm,
            currentArchitect := ck.current_architect,
            fallbackActive := ck.fallback_active }

/-! ## Claim C6: refused BUILD start without a working directory -/

/-- Claim C6: attempting the DIALOGUE-to-BUILD transition with no working
directory emits the actionable configuration error followed by the stream
sentinel and returns with the session state completely unchanged. -/
theorem c6_refused_without_workdir (st : Orch) (prp : PrpOutcome)
    (h : st.workingDirectory = none) :
    (start_development_phase st prp).1 = st
    ∧ (start_development_phase st prp).2
      = [some "[THINKING]Sto analizzando la nostra conversazione per creare il Piano di Progetto (PRP)...",
         some (promptText st.lang "error_no_working_dir"), none] := by
  unfold start_development_phase
  rw [h]
  exact ⟨rfl, rfl⟩

/-- Claim C6 witness: a fresh session (whose working directory is unset)
refuses the transition and is left untouched. -/
theorem c6_witness :
    (orchInit "s3" "en" "gemini").workingDirectory = none
    ∧ (start_development_phase (orchInit "s3" "en" "gemini") (.success "plan")).1
      = orchInit "s3" "en" "gemini"
    ∧ (start_development_phase (orchInit "s3" "en" "gemini") (.success "plan")).2
      = [some "[THINKING]Sto analizzando la nostra conversazione per creare il Piano di Progetto (PRP)...",
         some (promptText "en" "error_no_working_dir"), none] :=
  ⟨rfl,
   (c6_refused_without_workdir (orchInit "s3" "en" "gemini") (.success "plan") rfl).1,
   (c6_refused_without_workdir (orchInit "s3" "en" "gemini") (.success "plan") rfl).2⟩

/-! ## Claim C5: cycle counting -/

/-- Claim C5 counterexample: a completed recovery-mode cycle does not
increment `total_cycles` (it stays at its entry value, here 5), refuting
the claim that the counter strictly increases by exactly 1 per completed
cycle across every execution of the build loop including
restart-recovery. -/
theorem c5_counterexample :
    (development_loop_recovery_body
        { devSessionEx with totalCycles := 5 } ["Implemented the next step."]).totalCycles = 5
    ∧ ¬ (development_loop_recovery_body
        { devSessionEx with totalCycles := 5 } ["Implemented the next step."]).totalCycles
        = 5 + 1 := by
  exact ⟨rfl, by decide⟩

/-- Claim C5 amended: `total_cycles` increases by exactly 1 per cycle of the
normal and feedback build loops and is reset to 0 by the
DIALOGUE-to-BUILD transition (whenever a working directory is set);
recovery-mode cycles leave it unchanged, and a checkpoint load on a
feedback resume overwrites it with the saved checkpoint value. -/
theorem c5_cycle_counting :
    (∀ (st : Orch) (loc : LoopLocals) (chunks : List String),
        (development_loop_body st loc chunks).st.totalCycles = st.totalCycles + 1)
    ∧ (∀ (st : Orch) (chunks : List String),
        (development_loop_with_feedback_body st chunks).st.totalCycles = st.totalCycles + 1)
    ∧ (∀ (st : Orch) (chunks : List String),
        (development_loop_recovery_body st chunks).totalCycles = st.totalCycles)
    ∧ (∀ (st : Orch) (prp : PrpOutcome) (d : String), st.workingDirectory = some d →
        (start_development_phase st prp).1.totalCycles = 0)
    ∧ (∀ (st : Orch) (ck : CheckpointData),
        (load_checkpoint_apply st ck).totalCycles = ck.total_cycles) := by
  refine ⟨?_, ?_, ?_, ?_, fun st ck => rfl⟩
  · intro st loc chunks
    simp only [development_loop_body]
    repeat' split
    all_goals rfl
  · intro st chunks
    simp only [development_loop_with_feedback_body]
    repeat' split
    all_goals rfl
  · intro st chunks
    simp only [development_loop_recovery_body]
    split
    all_goals rfl
  · intro st prp d hd
    unfold start_development_phase
    rw [hd]
    cases prp <;> rfl

/-- Claim C5 amended-theorem witness at concrete inputs. -/
theorem c5_witness :
    (development_loop_body devSessionEx ⟨0, ""⟩ ["step output"]).st.totalCycles
      = devSessionEx.totalCycles + 1
    ∧ devSessionEx.workingDirectory = some "/tmp/app"
    ∧ (start_development_phase devSessionEx (.success "plan")).1.totalCycles = 0 :=
  ⟨c5_cycle_counting.1 devSessionEx ⟨0, ""⟩ ["step output"],
   rfl,
   c5_cycle_counting.2.2.2.1 devSessionEx (.success "plan") "/tmp/app" rfl⟩

/-! ## Checkpoint save (`_save_checkpoint`, orchestrator.py lines 3440-3470,
and `_cleanup_checkpoint`, lines 3504-3514)

`_save_checkpoint` serialises the checkpoint dict and writes it with
`with open(checkpoint_path, 'w') as f: json.dump(checkpoint_data, f)` —
a direct write to the final path.  The observable content of the
checkpoint path is modelled as `Option String` (`none` = no file), and
the save as the sequence of file operations the `with open(..., 'w')`
block performs: truncating open, payload write, close.  An interrupted
save corresponds to executing only a prefix of the sequence. -/

inductive FsOp where
  | openTrunc
  | writeChunk (s : String)
  | closeFile
  deriving Repr, DecidableEq

/-- Effect of one file operation on the content of the checkpoint path. -/
def applyFsOp : Option String → FsOp → Option String
  | _, .openTrunc => some ""
  | c, .writeChunk s => some (c.getD "" ++ s)
  | c, .closeFile => c

/-- The operation sequence of `_save_checkpoint` on the checkpoint path:
open-for-write (truncate), write the serialised payload, close.  There is
no temporary file and no rename. -/
def save_checkpoint_ops (payload : String) : List FsOp :=
  [.openTrunc, .writeChunk payload, .closeFile]

/-- Contents of the checkpoint path observable at each point of an
operation sequence (including the initial state). -/
def observableContents (initial : Option String) (ops : List FsOp) : List (Option String) :=
  ops.scanl applyFsOp initial

/-- Content left by a save that fails after `k` operations. -/
def contentAfterPartialSave (initial : Option String) (payload : String) (k : Nat) :
    Option String :=
  ((save_checkpoint_ops payload).take k).foldl applyFsOp initial

/-- Effect of `_cleanup_checkpoint` on the checkpoint path: the file is
removed. -/
def cleanup_checkpoint_apply (_ : Option String) : Option String := none

/-- Claim C8 counterexample: saving the payload "new" over an existing
checkpoint "old" exposes an observable intermediate state (the truncated,
empty file) that is neither the previous checkpoint nor the new snapshot,
and a save that fails right after the truncating open leaves that empty
file — the previous checkpoint is destroyed, refuting atomicity. -/
theorem c8_counterexample :
    some "" ∈ observableContents (some "old") (save_checkpoint_ops "new")
    ∧ ¬ (some "" = some "old" ∨ some "" = some "new")
    ∧ contentAfterPartialSave (some "old") "new" 1 = some ""
    ∧ ¬ contentAfterPartialSave (some "old") "new" 1 = some "old" := by
  refine ⟨?_, by decide, rfl, by decide⟩
  show some "" ∈ [some "old", some "", some "new", some "new"]
  decide

/-- Claim C8 amended: `_save_checkpoint` writes the snapshot directly to the
final checkpoint path with truncate-then-write semantics — a completed
save leaves exactly the serialised payload, but the truncating open first
empties the file, so the previous checkpoint is destroyed the moment the
save starts and an interrupted save leaves an empty or partial snapshot
rather than the previous checkpoint. -/
theorem c8_direct_write_not_atomic (initial : Option String) (payload : String) :
    ((observableContents initial (save_checkpoint_ops payload)).getLast (by
        simp [observableContents, save_checkpoint_ops]) = some payload)
    ∧ contentAfterPartialSave initial payload 1 = some ""
    ∧ contentAfterPartialSave initial payload 2 = some payload
    ∧ observableContents initial (save_checkpoint_ops payload)
      = [initial, some "", some payload, some payload] := by
  refine ⟨?_, rfl, ?_, ?_⟩
  · simp [observableContents, save_checkpoint_ops, applyFsOp, List.scanl]
  · simp [contentAfterPartialSave, save_checkpoint_ops, applyFsOp]
  · simp [observableContents, save_checkpoint_ops, applyFsOp, List.scanl]

end Prometheus
